import Mathlib

/-
Verification of the lifecycle manager in
src/tools/osx/MacPmem/MacPmem/MacPmem.c (the MacPmem kernel extension).

The module is embedded shallowly:

* The module-global variables of MacPmem.c become the `Globals` record.
* The host kernel's view of the externally held resources (which devfs
  nodes exist, which cdevsw slot is registered, whether the lock groups,
  the allocation tag and the sysctl oid are live) becomes the `Env`
  record.  External XNU calls are modelled by small functions on `Env`;
  a call that in XNU dereferences a null or already-freed object (for
  example lck_grp_free(NULL), devfs_remove on a removed node, kfree of a
  freed attribute, sysctl_unregister_oid of an unregistered oid) is a
  fault, modelled by `none`.  cdevsw_remove never faults: on a slot that
  does not hold our cdevsw it returns -1 and leaves the table alone.
* Results of external calls that the C code receives (allocation
  success, the assigned major number, collaborator init statuses) are
  supplied by a `Host` oracle record.
* Every external call a run performs is recorded, in program order, in a
  `List Event` trace.

Functions are translated line by line from the C source; comments cite
the corresponding source lines.
-/

set_option autoImplicit false

/-- Mach status code for success (kern_return.h). -/
def KERN_SUCCESS : Int := 0

/-- Mach status code for generic failure (kern_return.h). -/
def KERN_FAILURE : Int := 5

/-- Modelled from the spec: the preferred major number passed to
cdevsw_add.  The header MacPmem.h defining PMEM_MAJOR is not under src/;
the spec only says a specific preferred number is requested and any
non-negative assignment is accepted.  No theorem below depends on this
value; a negative value asks the host for a dynamic assignment. -/
def PMEM_MAJOR : Int := -24

/-- Minor number of the raw physical-memory device (MacPmem.c:84). -/
def PMEM_DEV_MINOR : Int := 1

/-- Minor number of the metadata (info) device (MacPmem.c:89). -/
def PMEM_INFO_MINOR : Int := 2

/-- External calls the lifecycle code can make, recorded in traces in
program order.  cdevswRemove records the index that was passed and the
index the call returned. -/
inductive Event where
  | devfsRemoveDev
  | devfsRemoveInfo
  | cdevswRemove (major : Int) (result : Int)
  | tagFree
  | metaCleanup
  | pteCleanup
  | sysctlUnregister
  | mutexAttrFree
  | mutexGrpFree
  | rwlockAttrFree
  | rwlockGrpFree
  | tagAlloc
  | rwlockAttrAlloc
  | rwlockGrpAlloc
  | mutexAttrAlloc
  | mutexGrpAlloc
  | cdevswAdd (request : Int) (result : Int)
  | devfsMakeInfo
  | devfsMakeDev
  | metaInit (result : Int)
  | pteInit (result : Int)
  | sysctlRegister
  deriving DecidableEq, Repr

/-- The module-global variables of MacPmem.c (lines 37-91).  Pointer
globals are modelled by a Bool that is true exactly when the pointer is
non-null; pmem_majorno keeps its C int value. -/
structure Globals where
  pmem_majorno : Int
  pmem_tag : Bool
  pmem_rwlock_grp : Bool
  pmem_rwlock_grp_attr : Bool
  pmem_mutex_grp : Bool
  pmem_mutex_grp_attr : Bool
  pmem_sysctl_needs_cleanup : Bool
  pmem_infonode : Bool
  pmem_devnode : Bool
  deriving DecidableEq, Repr

/-- The host kernel's view of the resources the module holds: which
referents of the handle globals are still live, and at which index (if
any) the module's cdevsw is registered. -/
structure Env where
  devnode_live : Bool
  infonode_live : Bool
  cdevsw_major : Option Int
  tag_live : Bool
  sysctl_registered : Bool
  mutex_grp_live : Bool
  mutex_attr_live : Bool
  rwlock_grp_live : Bool
  rwlock_attr_live : Bool
  deriving DecidableEq, Repr

/-- The C globals at kext load time: every pointer null, the flag clear,
and pmem_majorno at its initializer PMEM_MAJOR (MacPmem.c:37-91). -/
def init_globals : Globals :=
  { pmem_majorno := PMEM_MAJOR
    pmem_tag := false
    pmem_rwlock_grp := false
    pmem_rwlock_grp_attr := false
    pmem_mutex_grp := false
    pmem_mutex_grp_attr := false
    pmem_sysctl_needs_cleanup := false
    pmem_infonode := false
    pmem_devnode := false }

/-- The host state before the kext has acquired anything. -/
def init_env : Env :=
  { devnode_live := false
    infonode_live := false
    cdevsw_major := none
    tag_live := false
    sysctl_registered := false
    mutex_grp_live := false
    mutex_attr_live := false
    rwlock_grp_live := false
    rwlock_attr_live := false }

/-- Model of lck_grp_attr_free / lck_grp_free / OSMalloc_Tagfree applied
to a handle: the first Bool says whether the pointer is non-null, the
second whether its referent is still live.  XNU frees dereference the
pointer and unlink the object, so a null pointer or an already-freed
referent is a fault (none); otherwise the referent is dead afterwards. -/
def lck_free (ptr : Bool) (live : Bool) : Option Bool :=
  if ptr && live then some false else none

/-- Model of cdevsw_remove(major, &pmem_cdevsw) (sys/conf.h): if the
module's cdevsw is registered exactly at index major it is removed and
major is returned; otherwise the table is unchanged and -1 is returned.
This call never faults. -/
def cdevsw_remove (major : Int) (env : Env) : Int × Env :=
  if env.cdevsw_major = some major then
    (major, { env with cdevsw_major := none })
  else
    (-1, env)

/-- MacPmem.c:154-160 - the two guarded devfs_remove calls of
pmem_cleanup.  devfs_remove on a node that was already removed is a
use-after-free, modelled as a fault. -/
def cleanup_nodes (g : Globals) (env : Env) : Option (Env × List Event) :=
  match (if g.pmem_devnode then
           (if env.devnode_live then
              some ({ env with devnode_live := false }, [Event.devfsRemoveDev])
            else none)
         else some (env, [])) with
  | none => none
  | some (env, tr) =>
    if g.pmem_infonode then
      if env.infonode_live then
        some ({ env with infonode_live := false }, tr ++ [Event.devfsRemoveInfo])
      else none
    else some (env, tr)

/-- MacPmem.c:162-171 - the major-number deregistration block of
pmem_cleanup, including the echo check that overwrites the error with
KERN_FAILURE when cdevsw_remove does not return pmem_majorno.  This
block never faults. -/
def cleanup_major (g : Globals) (env : Env) (error : Int) :
    Int × Env × List Event :=
  if 0 < g.pmem_majorno then
    let p := cdevsw_remove g.pmem_majorno env
    let tr := [Event.cdevswRemove g.pmem_majorno p.1]
    if p.1 ≠ g.pmem_majorno then (KERN_FAILURE, p.2, tr)
    else (error, p.2, tr)
  else (error, env, [])

/-- MacPmem.c:173-175 - the guarded OSMalloc_Tagfree call. -/
def cleanup_tag (g : Globals) (env : Env) : Option (Env × List Event) :=
  if g.pmem_tag then
    if env.tag_live then
      some ({ env with tag_live := false }, [Event.tagFree])
    else none
  else some (env, [])

/-- MacPmem.c:177-178 - the unconditional collaborator cleanups
pmem_meta_cleanup and pmem_pte_cleanup.  Both are external and
documented idempotent; they change nothing in Env and only leave trace
events. -/
def cleanup_collab : List Event := [Event.metaCleanup, Event.pteCleanup]

/-- MacPmem.c:180-182 - the guarded sysctl_unregister_oid call.
Unregistering an oid that is not registered unlinks a missing list
element in XNU, modelled as a fault. -/
def cleanup_sysctl (g : Globals) (env : Env) : Option (Env × List Event) :=
  if g.pmem_sysctl_needs_cleanup then
    if env.sysctl_registered then
      some ({ env with sysctl_registered := false }, [Event.sysctlUnregister])
    else none
  else some (env, [])

/-- MacPmem.c:184-189 - the four unguarded lock-group frees of
pmem_cleanup, in source order: mutex attr, mutex group, rwlock attr,
rwlock group.  The source performs no null check here, so a null or
already-freed handle faults (see lck_free). -/
def cleanup_locks (g : Globals) (env : Env) : Option (Env × List Event) :=
  match lck_free g.pmem_mutex_grp_attr env.mutex_attr_live with
  | none => none
  | some a =>
    match lck_free g.pmem_mutex_grp env.mutex_grp_live with
    | none => none
    | some b =>
      match lck_free g.pmem_rwlock_grp_attr env.rwlock_attr_live with
      | none => none
      | some c =>
        match lck_free g.pmem_rwlock_grp env.rwlock_grp_live with
        | none => none
        | some d =>
          some ({ env with mutex_attr_live := a, mutex_grp_live := b,
                           rwlock_attr_live := c, rwlock_grp_live := d },
                [Event.mutexAttrFree, Event.mutexGrpFree,
                 Event.rwlockAttrFree, Event.rwlockGrpFree])

/-- Shallow embedding of pmem_cleanup (MacPmem.c:153-192).  Takes the
current globals, the host environment and the incoming error, and
returns none on a fault, otherwise the returned status, the environment
after all external calls, and the trace of external calls in program
order.  Note that pmem_cleanup never writes any module global (the C
body only assigns the local variables error and removed_idx), so the
Globals are unchanged by construction. -/
def pmem_cleanup (g : Globals) (env : Env) (error : Int) :
    Option (Int × Env × List Event) :=
  match cleanup_nodes g env with
  | none => none
  | some (env, tr1) =>
    let q := cleanup_major g env error
    match cleanup_tag g q.2.1 with
    | none => none
    | some (env, tr3) =>
      match cleanup_sysctl g env with
      | none => none
      | some (env, tr4) =>
        match cleanup_locks g env with
        | none => none
        | some (env, tr5) =>
          some (q.1, env, tr1 ++ q.2.2 ++ tr3 ++ cleanup_collab ++ tr4 ++ tr5)

/-- Results of the external calls pmem_init and start make, supplied by
the host kernel: whether each allocation returned a non-null pointer,
the index cdevsw_add assigned (negative on refusal), whether each
devfs_make_node returned a node, and the statuses of the collaborator
initializers pmem_meta_init and pmem_pte_init. -/
structure Host where
  tag_alloc_ok : Bool
  rwlock_attr_ok : Bool
  rwlock_grp_ok : Bool
  mutex_attr_ok : Bool
  mutex_grp_ok : Bool
  cdevsw_add_result : Int
  infonode_ok : Bool
  devnode_ok : Bool
  meta_init_result : Int
  pte_init_result : Int
  deriving DecidableEq, Repr

/-- Model of lck_grp_attr_setstat (MacPmem.c:202,206): the XNU call
dereferences the attribute to set a bit, so a null attribute faults. -/
def lck_grp_attr_setstat (ptr : Bool) : Option Unit :=
  if ptr then some () else none

/-- Shallow embedding of pmem_init (MacPmem.c:196-241).  Mirrors the C
body statement by statement; the source performs no check whatsoever on
the results of OSMalloc_Tagalloc, lck_grp_attr_alloc_init and
lck_grp_alloc_init, so failed allocations simply leave null handles
behind.  Returns none only when lck_grp_attr_setstat dereferences a
null attribute. -/
def pmem_init (h : Host) (g : Globals) (env : Env) :
    Option (Int × Globals × Env × List Event) :=
  -- pmem_tag = OSMalloc_Tagalloc(pmem_tagname, OSMT_DEFAULT);
  let g := { g with pmem_tag := h.tag_alloc_ok }
  let env := { env with tag_live := h.tag_alloc_ok }
  let tr : List Event := [Event.tagAlloc]
  -- pmem_rwlock_grp_attr = lck_grp_attr_alloc_init();
  let g := { g with pmem_rwlock_grp_attr := h.rwlock_attr_ok }
  let env := { env with rwlock_attr_live := h.rwlock_attr_ok }
  let tr := tr ++ [Event.rwlockAttrAlloc]
  -- lck_grp_attr_setstat(pmem_rwlock_grp_attr);
  match lck_grp_attr_setstat g.pmem_rwlock_grp_attr with
  | none => none
  | some _ =>
    -- pmem_rwlock_grp = lck_grp_alloc_init("pmem_rwlock", ...);
    let g := { g with pmem_rwlock_grp := h.rwlock_grp_ok }
    let env := { env with rwlock_grp_live := h.rwlock_grp_ok }
    let tr := tr ++ [Event.rwlockGrpAlloc]
    -- pmem_mutex_grp_attr = lck_grp_attr_alloc_init();
    let g := { g with pmem_mutex_grp_attr := h.mutex_attr_ok }
    let env := { env with mutex_attr_live := h.mutex_attr_ok }
    let tr := tr ++ [Event.mutexAttrAlloc]
    -- lck_grp_attr_setstat(pmem_mutex_grp_attr);
    match lck_grp_attr_setstat g.pmem_mutex_grp_attr with
    | none => none
    | some _ =>
      -- pmem_mutex_grp = lck_grp_alloc_init("pmem_mutex", ...);
      let g := { g with pmem_mutex_grp := h.mutex_grp_ok }
      let env := { env with mutex_grp_live := h.mutex_grp_ok }
      let tr := tr ++ [Event.mutexGrpAlloc]
      -- pmem_majorno = cdevsw_add(PMEM_MAJOR, &pmem_cdevsw);
      let g := { g with pmem_majorno := h.cdevsw_add_result }
      let env := if 0 ≤ h.cdevsw_add_result then
                   { env with cdevsw_major := some h.cdevsw_add_result }
                 else env
      let tr := tr ++ [Event.cdevswAdd PMEM_MAJOR h.cdevsw_add_result]
      -- if (pmem_majorno < 0) { ...; return KERN_FAILURE; }
      if g.pmem_majorno < 0 then some (KERN_FAILURE, g, env, tr)
      else
        -- pmem_infonode = devfs_make_node(...);
        let g := { g with pmem_infonode := h.infonode_ok }
        let env := if h.infonode_ok then { env with infonode_live := true }
                   else env
        let tr := tr ++ [Event.devfsMakeInfo]
        -- if (!pmem_infonode) { ...; return KERN_FAILURE; }
        if !g.pmem_infonode then some (KERN_FAILURE, g, env, tr)
        else
          -- pmem_devnode = devfs_make_node(...);
          let g := { g with pmem_devnode := h.devnode_ok }
          let env := if h.devnode_ok then { env with devnode_live := true }
                     else env
          let tr := tr ++ [Event.devfsMakeDev]
          -- if (!pmem_devnode) { ...; return KERN_FAILURE; }
          if !g.pmem_devnode then some (KERN_FAILURE, g, env, tr)
          else some (KERN_SUCCESS, g, env, tr)

/-- Shallow embedding of com_google_MacPmem_start (MacPmem.c:244-268):
run pmem_init, then pmem_meta_init, then pmem_pte_init, each gated on
the previous succeeding and unwinding through pmem_cleanup on failure;
finally register the sysctl oid and set the cleanup flag. -/
def com_google_MacPmem_start (h : Host) (g : Globals) (env : Env) :
    Option (Int × Globals × Env × List Event) :=
  match pmem_init h g env with
  | none => none
  | some (error, g, env, tr) =>
    if error ≠ KERN_SUCCESS then
      match pmem_cleanup g env error with
      | none => none
      | some (r, env, tr2) => some (r, g, env, tr ++ tr2)
    else
      -- error = pmem_meta_init();
      let error := h.meta_init_result
      let tr := tr ++ [Event.metaInit h.meta_init_result]
      if error ≠ KERN_SUCCESS then
        match pmem_cleanup g env error with
        | none => none
        | some (r, env, tr2) => some (r, g, env, tr ++ tr2)
      else
        -- error = pmem_pte_init();
        let error := h.pte_init_result
        let tr := tr ++ [Event.pteInit h.pte_init_result]
        if error ≠ KERN_SUCCESS then
          match pmem_cleanup g env error with
          | none => none
          | some (r, env, tr2) => some (r, g, env, tr ++ tr2)
        else
          -- sysctl_register_oid(...); pmem_sysctl_needs_cleanup = 1;
          let g := { g with pmem_sysctl_needs_cleanup := true }
          let env := { env with sysctl_registered := true }
          let tr := tr ++ [Event.sysctlRegister]
          some (error, g, env, tr)

/-- Shallow embedding of com_google_MacPmem_stop (MacPmem.c:271-274):
unconditionally run the rollback routine with KERN_SUCCESS. -/
def com_google_MacPmem_stop (g : Globals) (env : Env) :
    Option (Int × Env × List Event) :=
  pmem_cleanup g env KERN_SUCCESS

/-- Statuses returned by the external collaborator hooks that the
dispatch routines delegate to (pmem_openmeta, pmem_closemeta,
pmem_readmeta, pmem_read_rogue). -/
structure Collab where
  openmeta_result : Int
  closemeta_result : Int
  readmeta_result : Int
  read_rogue_result : Int
  deriving DecidableEq, Repr

/-- The collaborator entry points a dispatch call can reach, plus the
warning-level log emitted on an unknown minor number. -/
inductive DispatchCall where
  | openmeta
  | closemeta
  | readmeta
  | read_rogue
  | warnLog
  deriving DecidableEq, Repr

/-- Shallow embedding of pmem_open (MacPmem.c:100-112): switch on
minor(dev).  The C body reads no module global and performs no write,
so the function is pure; it returns the status and the collaborator
calls (plus warning logs) it performed. -/
def pmem_open (c : Collab) (minor : Int) : Int × List DispatchCall :=
  if minor = PMEM_DEV_MINOR then (KERN_SUCCESS, [])
  else if minor = PMEM_INFO_MINOR then
    (c.openmeta_result, [DispatchCall.openmeta])
  else (KERN_FAILURE, [DispatchCall.warnLog])

/-- Shallow embedding of pmem_close (MacPmem.c:115-127). -/
def pmem_close (c : Collab) (minor : Int) : Int × List DispatchCall :=
  if minor = PMEM_DEV_MINOR then (KERN_SUCCESS, [])
  else if minor = PMEM_INFO_MINOR then
    (c.closemeta_result, [DispatchCall.closemeta])
  else (KERN_FAILURE, [DispatchCall.warnLog])

/-- Shallow embedding of pmem_read (MacPmem.c:131-144). -/
def pmem_read (c : Collab) (minor : Int) : Int × List DispatchCall :=
  if minor = PMEM_DEV_MINOR then
    (c.read_rogue_result, [DispatchCall.read_rogue])
  else if minor = PMEM_INFO_MINOR then
    (c.readmeta_result, [DispatchCall.readmeta])
  else (KERN_FAILURE, [DispatchCall.warnLog])

/-- All nine handle globals are marked acquired (pmem_majorno registered
positive, every pointer non-null, the sysctl flag set). -/
def allAcquired (g : Globals) : Prop :=
  g.pmem_devnode = true ∧ g.pmem_infonode = true ∧ 0 < g.pmem_majorno ∧
  g.pmem_tag = true ∧ g.pmem_sysctl_needs_cleanup = true ∧
  g.pmem_mutex_grp = true ∧ g.pmem_mutex_grp_attr = true ∧
  g.pmem_rwlock_grp = true ∧ g.pmem_rwlock_grp_attr = true

/-- The four lock-group handle globals are non-null. -/
def locksAcquired (g : Globals) : Prop :=
  g.pmem_mutex_grp = true ∧ g.pmem_mutex_grp_attr = true ∧
  g.pmem_rwlock_grp = true ∧ g.pmem_rwlock_grp_attr = true

/-- The handle globals agree with the host's view: every handle the
module believes it holds still refers to a live resource, and a
positive pmem_majorno is registered at exactly that index. -/
def Consistent (g : Globals) (env : Env) : Prop :=
  (g.pmem_devnode = true → env.devnode_live = true) ∧
  (g.pmem_infonode = true → env.infonode_live = true) ∧
  (0 < g.pmem_majorno → env.cdevsw_major = some g.pmem_majorno) ∧
  (g.pmem_tag = true → env.tag_live = true) ∧
  (g.pmem_sysctl_needs_cleanup = true → env.sysctl_registered = true) ∧
  (g.pmem_mutex_grp = true → env.mutex_grp_live = true) ∧
  (g.pmem_mutex_grp_attr = true → env.mutex_attr_live = true) ∧
  (g.pmem_rwlock_grp = true → env.rwlock_grp_live = true) ∧
  (g.pmem_rwlock_grp_attr = true → env.rwlock_attr_live = true)

/-- The host holds none of the module's resources any more: no device
node exists, the cdevsw slot is free, the tag, sysctl oid and all four
lock-group objects are gone. -/
def FullyReleased (env : Env) : Prop :=
  env.devnode_live = false ∧ env.infonode_live = false ∧
  env.cdevsw_major = none ∧ env.tag_live = false ∧
  env.sysctl_registered = false ∧ env.mutex_grp_live = false ∧
  env.mutex_attr_live = false ∧ env.rwlock_grp_live = false ∧
  env.rwlock_attr_live = false

/-- True on the two device-node removal events. -/
def Event.isNodeRemove : Event → Bool
  | Event.devfsRemoveDev => true
  | Event.devfsRemoveInfo => true
  | _ => false

/-- Checks the spec's ordering invariant on a trace: no device-node
removal event occurs after any cdevsw (major-number) deregistration
event. -/
def nodesBeforeMajor : List Event → Bool
  | [] => true
  | Event.cdevswRemove _ _ :: rest =>
      rest.all (fun ev => ! ev.isNodeRemove) && nodesBeforeMajor rest
  | _ :: rest => nodesBeforeMajor rest

/-- Maps each release-type event to the number of the acquisition step
(section 4.2 of the spec) whose resource it releases: 1 lock groups,
2 major number, 3 metadata node, 4 raw-memory node, 5 metadata
collaborator, 6 page-table collaborator, 7 sysctl variable.  The
allocation-tag free and all acquisition-side events map to none (the
tag is not one of the spec's numbered steps). -/
def stepOf : Event → Option Nat
  | Event.mutexAttrFree => some 1
  | Event.mutexGrpFree => some 1
  | Event.rwlockAttrFree => some 1
  | Event.rwlockGrpFree => some 1
  | Event.cdevswRemove _ _ => some 2
  | Event.devfsRemoveInfo => some 3
  | Event.devfsRemoveDev => some 4
  | Event.metaCleanup => some 5
  | Event.pteCleanup => some 6
  | Event.sysctlUnregister => some 7
  | _ => none

lemma cleanup_nodes_inv (g : Globals) (env env2 : Env) (tr : List Event)
    (h : cleanup_nodes g env = some (env2, tr)) :
    env2 = { env with devnode_live := !g.pmem_devnode && env.devnode_live,
                      infonode_live := !g.pmem_infonode && env.infonode_live } ∧
    tr = (if g.pmem_devnode then [Event.devfsRemoveDev] else []) ++
         (if g.pmem_infonode then [Event.devfsRemoveInfo] else []) := by
  unfold cleanup_nodes at h
  obtain ⟨d, i, c, t, s, mg, ma, rg, ra⟩ := env2
  cases hd : g.pmem_devnode <;> cases hi : g.pmem_infonode <;>
    cases hdl : env.devnode_live <;> cases hil : env.infonode_live <;>
    simp_all

lemma cleanup_major_eq (g : Globals) (env : Env) (e : Int) :
    cleanup_major g env e =
      ((if 0 < g.pmem_majorno ∧ env.cdevsw_major ≠ some g.pmem_majorno
        then KERN_FAILURE else e),
       { env with cdevsw_major :=
           if 0 < g.pmem_majorno ∧ env.cdevsw_major = some g.pmem_majorno
           then none else env.cdevsw_major },
       (if 0 < g.pmem_majorno then
          [Event.cdevswRemove g.pmem_majorno
             (if env.cdevsw_major = some g.pmem_majorno
              then g.pmem_majorno else -1)]
        else [])) := by
  unfold cleanup_major cdevsw_remove
  obtain ⟨d, i, c, t, s, mg, ma, rg, ra⟩ := env
  by_cases hm : 0 < g.pmem_majorno <;>
    by_cases he : c = some g.pmem_majorno <;>
    simp [hm, he] <;> (try (intro hx; omega))

lemma cleanup_tag_inv (g : Globals) (env env2 : Env) (tr : List Event)
    (h : cleanup_tag g env = some (env2, tr)) :
    env2 = { env with tag_live := !g.pmem_tag && env.tag_live } ∧
    tr = (if g.pmem_tag then [Event.tagFree] else []) := by
  unfold cleanup_tag at h
  obtain ⟨d, i, c, t, s, mg, ma, rg, ra⟩ := env2
  cases ht : g.pmem_tag <;> cases htl : env.tag_live <;> simp_all

lemma cleanup_sysctl_inv (g : Globals) (env env2 : Env) (tr : List Event)
    (h : cleanup_sysctl g env = some (env2, tr)) :
    env2 = { env with sysctl_registered :=
               !g.pmem_sysctl_needs_cleanup && env.sysctl_registered } ∧
    tr = (if g.pmem_sysctl_needs_cleanup then [Event.sysctlUnregister] else []) := by
  unfold cleanup_sysctl at h
  obtain ⟨d, i, c, t, s, mg, ma, rg, ra⟩ := env2
  cases hs : g.pmem_sysctl_needs_cleanup <;>
    cases hsr : env.sysctl_registered <;> simp_all

lemma cleanup_locks_inv (g : Globals) (env env2 : Env) (tr : List Event)
    (h : cleanup_locks g env = some (env2, tr)) :
    env2 = { env with mutex_attr_live := false, mutex_grp_live := false,
                      rwlock_attr_live := false, rwlock_grp_live := false } ∧
    tr = [Event.mutexAttrFree, Event.mutexGrpFree,
          Event.rwlockAttrFree, Event.rwlockGrpFree] := by
  unfold cleanup_locks lck_free at h
  obtain ⟨d, i, c, t, s, mg, ma, rg, ra⟩ := env2
  cases h1 : (g.pmem_mutex_grp_attr && env.mutex_attr_live) <;>
    cases h2 : (g.pmem_mutex_grp && env.mutex_grp_live) <;>
    cases h3 : (g.pmem_rwlock_grp_attr && env.rwlock_attr_live) <;>
    cases h4 : (g.pmem_rwlock_grp && env.rwlock_grp_live) <;>
    simp_all

lemma cleanup_shape (g : Globals) (env : Env) (e r : Int) (env2 : Env)
    (tr : List Event) (h : pmem_cleanup g env e = some (r, env2, tr)) :
    ∃ env1 tr1 env3 tr3 env4 tr4 env5 tr5,
      cleanup_nodes g env = some (env1, tr1) ∧
      cleanup_tag g (cleanup_major g env1 e).2.1 = some (env3, tr3) ∧
      cleanup_sysctl g env3 = some (env4, tr4) ∧
      cleanup_locks g env4 = some (env5, tr5) ∧
      r = (cleanup_major g env1 e).1 ∧ env2 = env5 ∧
      tr = tr1 ++ (cleanup_major g env1 e).2.2 ++ tr3 ++ cleanup_collab ++
           tr4 ++ tr5 := by
  unfold pmem_cleanup at h
  rcases hn : cleanup_nodes g env with _ | ⟨env1, tr1⟩
  · rw [hn] at h; simp at h
  rw [hn] at h
  dsimp only at h
  rcases ht : cleanup_tag g (cleanup_major g env1 e).2.1 with _ | ⟨env3, tr3⟩
  · rw [ht] at h; simp at h
  rw [ht] at h
  dsimp only at h
  rcases hs : cleanup_sysctl g env3 with _ | ⟨env4, tr4⟩
  · rw [hs] at h; simp at h
  rw [hs] at h
  dsimp only at h
  rcases hl : cleanup_locks g env4 with _ | ⟨env5, tr5⟩
  · rw [hl] at h; simp at h
  rw [hl] at h
  dsimp only at h
  simp only [Option.some.injEq, Prod.mk.injEq] at h
  obtain ⟨h1, h2, h3⟩ := h
  refine ⟨env1, tr1, env3, tr3, env4, tr4, env5, tr5, ?_, ?_, ?_, ?_, ?_, ?_, ?_⟩
  any_goals first
    | exact hn | exact ht | exact hs | exact hl
    | exact h1.symm | exact h2.symm | exact h3.symm | rfl

lemma cleanup_inv (g : Globals) (env : Env) (e r : Int) (env2 : Env)
    (tr : List Event) (h : pmem_cleanup g env e = some (r, env2, tr)) :
    r = (if 0 < g.pmem_majorno ∧ env.cdevsw_major ≠ some g.pmem_majorno
         then KERN_FAILURE else e) ∧
    env2.devnode_live = (!g.pmem_devnode && env.devnode_live) ∧
    env2.infonode_live = (!g.pmem_infonode && env.infonode_live) ∧
    env2.cdevsw_major = (if 0 < g.pmem_majorno ∧
                            env.cdevsw_major = some g.pmem_majorno
                         then none else env.cdevsw_major) ∧
    env2.tag_live = (!g.pmem_tag && env.tag_live) ∧
    env2.sysctl_registered =
      (!g.pmem_sysctl_needs_cleanup && env.sysctl_registered) ∧
    env2.mutex_attr_live = false ∧ env2.mutex_grp_live = false ∧
    env2.rwlock_attr_live = false ∧ env2.rwlock_grp_live = false ∧
    Event.metaCleanup ∈ tr ∧ Event.pteCleanup ∈ tr ∧
    nodesBeforeMajor tr = true := by
  obtain ⟨env1, tr1, env3, tr3, env4, tr4, env5, tr5,
          hn, ht, hs, hl, hr, henv, htr⟩ := cleanup_shape g env e r env2 tr h
  obtain ⟨hne, hnt⟩ := cleanup_nodes_inv g env env1 tr1 hn
  subst hne hnt
  rw [cleanup_major_eq] at ht hr htr
  dsimp only at ht hr htr
  obtain ⟨hte, htt⟩ := cleanup_tag_inv _ _ _ _ ht
  subst hte htt
  obtain ⟨hse, hst⟩ := cleanup_sysctl_inv _ _ _ _ hs
  subst hse hst
  obtain ⟨hle, hlt⟩ := cleanup_locks_inv _ _ _ _ hl
  subst hle hlt henv htr hr
  refine ⟨by simp, by simp, by simp, by simp, by simp, by simp, by simp,
          by simp, by simp, by simp, by simp [cleanup_collab],
          by simp [cleanup_collab], ?_⟩
  rcases hd : g.pmem_devnode <;> rcases hi : g.pmem_infonode <;>
    by_cases hm : 0 < g.pmem_majorno <;> rcases htg : g.pmem_tag <;>
    rcases hsy : g.pmem_sysctl_needs_cleanup <;>
    simp [hd, hi, hm, htg, hsy, nodesBeforeMajor, cleanup_collab,
          Event.isNodeRemove]

lemma cleanup_nodes_some (g : Globals) (env : Env)
    (h1 : g.pmem_devnode = true → env.devnode_live = true)
    (h2 : g.pmem_infonode = true → env.infonode_live = true) :
    (cleanup_nodes g env).isSome = true := by
  unfold cleanup_nodes
  cases hd : g.pmem_devnode <;> cases hi : g.pmem_infonode <;> simp_all

lemma cleanup_tag_some (g : Globals) (env : Env)
    (h1 : g.pmem_tag = true → env.tag_live = true) :
    (cleanup_tag g env).isSome = true := by
  unfold cleanup_tag
  cases ht : g.pmem_tag <;> simp_all

lemma cleanup_sysctl_some (g : Globals) (env : Env)
    (h1 : g.pmem_sysctl_needs_cleanup = true → env.sysctl_registered = true) :
    (cleanup_sysctl g env).isSome = true := by
  unfold cleanup_sysctl
  cases hs : g.pmem_sysctl_needs_cleanup <;> simp_all

lemma cleanup_locks_some (g : Globals) (env : Env)
    (l1 : g.pmem_mutex_grp = true) (l2 : g.pmem_mutex_grp_attr = true)
    (l3 : g.pmem_rwlock_grp = true) (l4 : g.pmem_rwlock_grp_attr = true)
    (m1 : env.mutex_grp_live = true) (m2 : env.mutex_attr_live = true)
    (m3 : env.rwlock_grp_live = true) (m4 : env.rwlock_attr_live = true) :
    (cleanup_locks g env).isSome = true := by
  unfold cleanup_locks lck_free
  simp [l1, l2, l3, l4, m1, m2, m3, m4]

lemma pmem_cleanup_build (g : Globals) (env env1 env3 env4 env5 : Env)
    (tr1 tr3 tr4 tr5 : List Event) (e : Int)
    (hn : cleanup_nodes g env = some (env1, tr1))
    (ht : cleanup_tag g (cleanup_major g env1 e).2.1 = some (env3, tr3))
    (hs : cleanup_sysctl g env3 = some (env4, tr4))
    (hl : cleanup_locks g env4 = some (env5, tr5)) :
    pmem_cleanup g env e =
      some ((cleanup_major g env1 e).1, env5,
            tr1 ++ (cleanup_major g env1 e).2.2 ++ tr3 ++ cleanup_collab ++
            tr4 ++ tr5) := by
  unfold pmem_cleanup
  rw [hn]
  dsimp only
  rw [ht]
  dsimp only
  rw [hs]
  dsimp only
  rw [hl]

lemma cleanup_total (g : Globals) (env : Env) (e : Int)
    (hc : Consistent g env) (hl : locksAcquired g) :
    (pmem_cleanup g env e).isSome = true := by
  obtain ⟨c1, c2, c3, c4, c5, c6, c7, c8, c9⟩ := hc
  obtain ⟨l1, l2, l3, l4⟩ := hl
  have hn0 := cleanup_nodes_some g env c1 c2
  rw [Option.isSome_iff_exists] at hn0
  obtain ⟨⟨env1, tr1⟩, hn⟩ := hn0
  obtain ⟨hne, -⟩ := cleanup_nodes_inv g env env1 tr1 hn
  have f1 : env1.tag_live = env.tag_live := by rw [hne]
  have f2 : env1.sysctl_registered = env.sysctl_registered := by rw [hne]
  have f3 : env1.mutex_grp_live = env.mutex_grp_live := by rw [hne]
  have f4 : env1.mutex_attr_live = env.mutex_attr_live := by rw [hne]
  have f5 : env1.rwlock_grp_live = env.rwlock_grp_live := by rw [hne]
  have f6 : env1.rwlock_attr_live = env.rwlock_attr_live := by rw [hne]
  set envM := (cleanup_major g env1 e).2.1 with hMdef
  have m1 : envM.tag_live = env.tag_live := by
    rw [hMdef, cleanup_major_eq]; simpa using f1
  have m2 : envM.sysctl_registered = env.sysctl_registered := by
    rw [hMdef, cleanup_major_eq]; simpa using f2
  have m3 : envM.mutex_grp_live = env.mutex_grp_live := by
    rw [hMdef, cleanup_major_eq]; simpa using f3
  have m4 : envM.mutex_attr_live = env.mutex_attr_live := by
    rw [hMdef, cleanup_major_eq]; simpa using f4
  have m5 : envM.rwlock_grp_live = env.rwlock_grp_live := by
    rw [hMdef, cleanup_major_eq]; simpa using f5
  have m6 : envM.rwlock_attr_live = env.rwlock_attr_live := by
    rw [hMdef, cleanup_major_eq]; simpa using f6
  have ht0 := cleanup_tag_some g envM (fun hh => m1.trans (c4 hh))
  rw [Option.isSome_iff_exists] at ht0
  obtain ⟨⟨env3, tr3⟩, ht⟩ := ht0
  obtain ⟨hte, -⟩ := cleanup_tag_inv _ _ _ _ ht
  have n2 : env3.sysctl_registered = env.sysctl_registered := by
    rw [hte]; simpa using m2
  have n3 : env3.mutex_grp_live = env.mutex_grp_live := by
    rw [hte]; simpa using m3
  have n4 : env3.mutex_attr_live = env.mutex_attr_live := by
    rw [hte]; simpa using m4
  have n5 : env3.rwlock_grp_live = env.rwlock_grp_live := by
    rw [hte]; simpa using m5
  have n6 : env3.rwlock_attr_live = env.rwlock_attr_live := by
    rw [hte]; simpa using m6
  have hs0 := cleanup_sysctl_some g env3 (fun hh => n2.trans (c5 hh))
  rw [Option.isSome_iff_exists] at hs0
  obtain ⟨⟨env4, tr4⟩, hsx⟩ := hs0
  obtain ⟨hse, -⟩ := cleanup_sysctl_inv _ _ _ _ hsx
  have p3 : env4.mutex_grp_live = env.mutex_grp_live := by
    rw [hse]; simpa using n3
  have p4 : env4.mutex_attr_live = env.mutex_attr_live := by
    rw [hse]; simpa using n4
  have p5 : env4.rwlock_grp_live = env.rwlock_grp_live := by
    rw [hse]; simpa using n5
  have p6 : env4.rwlock_attr_live = env.rwlock_attr_live := by
    rw [hse]; simpa using n6
  have hl0 := cleanup_locks_some g env4 l1 l2 l3 l4
      (p3.trans (c6 l1)) (p4.trans (c7 l2)) (p5.trans (c8 l3))
      (p6.trans (c9 l4))
  rw [Option.isSome_iff_exists] at hl0
  obtain ⟨⟨env5, tr5⟩, hlx⟩ := hl0
  rw [pmem_cleanup_build g env env1 env3 env4 env5 tr1 tr3 tr4 tr5 e hn
        (hMdef ▸ ht) hsx hlx]
  rfl

/-- The module globals after pmem_init has run the unchecked allocation
phase and cdevsw_add, with the node handles as given; helper for the
pmem_init stage lemmas. -/
def g_stage (h : Host) (info dev : Bool) : Globals :=
  { pmem_majorno := h.cdevsw_add_result
    pmem_tag := h.tag_alloc_ok
    pmem_rwlock_grp := h.rwlock_grp_ok
    pmem_rwlock_grp_attr := h.rwlock_attr_ok
    pmem_mutex_grp := h.mutex_grp_ok
    pmem_mutex_grp_attr := h.mutex_attr_ok
    pmem_sysctl_needs_cleanup := false
    pmem_infonode := info
    pmem_devnode := dev }

/-- The host environment matching g_stage when pmem_init is run from
init_env; reg is the cdevsw registration produced by cdevsw_add. -/
def env_stage (h : Host) (reg : Option Int) (info dev : Bool) : Env :=
  { devnode_live := dev
    infonode_live := info
    cdevsw_major := reg
    tag_live := h.tag_alloc_ok
    sysctl_registered := false
    mutex_grp_live := h.mutex_grp_ok
    mutex_attr_live := h.mutex_attr_ok
    rwlock_grp_live := h.rwlock_grp_ok
    rwlock_attr_live := h.rwlock_attr_ok }

/-- Trace of pmem_init up to and including cdevsw_add. -/
def tr_stage1 (h : Host) : List Event :=
  [Event.tagAlloc, Event.rwlockAttrAlloc, Event.rwlockGrpAlloc,
   Event.mutexAttrAlloc, Event.mutexGrpAlloc,
   Event.cdevswAdd PMEM_MAJOR h.cdevsw_add_result]

lemma pmem_init_neg (h : Host) (hra : h.rwlock_attr_ok = true)
    (hma : h.mutex_attr_ok = true) (hc : h.cdevsw_add_result < 0) :
    pmem_init h init_globals init_env =
      some (KERN_FAILURE, g_stage h false false,
            env_stage h none false false, tr_stage1 h) := by
  have h0 : ¬ 0 ≤ h.cdevsw_add_result := by omega
  unfold pmem_init lck_grp_attr_setstat
  simp [hra, hma, hc, h0, init_globals, init_env, g_stage, env_stage,
        tr_stage1]

lemma pmem_init_noinfo (h : Host) (hra : h.rwlock_attr_ok = true)
    (hma : h.mutex_attr_ok = true) (hc : 0 ≤ h.cdevsw_add_result)
    (hi : h.infonode_ok = false) :
    pmem_init h init_globals init_env =
      some (KERN_FAILURE, g_stage h false false,
            env_stage h (some h.cdevsw_add_result) false false,
            tr_stage1 h ++ [Event.devfsMakeInfo]) := by
  have h0 : ¬ h.cdevsw_add_result < 0 := by omega
  unfold pmem_init lck_grp_attr_setstat
  simp [hra, hma, hc, h0, hi, init_globals, init_env, g_stage, env_stage,
        tr_stage1]

lemma pmem_init_nodev (h : Host) (hra : h.rwlock_attr_ok = true)
    (hma : h.mutex_attr_ok = true) (hc : 0 ≤ h.cdevsw_add_result)
    (hi : h.infonode_ok = true) (hd : h.devnode_ok = false) :
    pmem_init h init_globals init_env =
      some (KERN_FAILURE, g_stage h true false,
            env_stage h (some h.cdevsw_add_result) true false,
            tr_stage1 h ++ [Event.devfsMakeInfo, Event.devfsMakeDev]) := by
  have h0 : ¬ h.cdevsw_add_result < 0 := by omega
  unfold pmem_init lck_grp_attr_setstat
  simp [hra, hma, hc, h0, hi, hd, init_globals, init_env, g_stage,
        env_stage, tr_stage1]

lemma pmem_init_ok (h : Host) (hra : h.rwlock_attr_ok = true)
    (hma : h.mutex_attr_ok = true) (hc : 0 ≤ h.cdevsw_add_result)
    (hi : h.infonode_ok = true) (hd : h.devnode_ok = true) :
    pmem_init h init_globals init_env =
      some (KERN_SUCCESS, g_stage h true true,
            env_stage h (some h.cdevsw_add_result) true true,
            tr_stage1 h ++ [Event.devfsMakeInfo, Event.devfsMakeDev]) := by
  have h0 : ¬ h.cdevsw_add_result < 0 := by omega
  unfold pmem_init lck_grp_attr_setstat
  simp [hra, hma, hc, h0, hi, hd, init_globals, init_env, g_stage,
        env_stage, tr_stage1]

lemma start_init_fail (h : Host) (g0 : Globals) (env0 : Env) (err : Int)
    (g1 : Globals) (env1 : Env) (trI : List Event) (r : Int) (env2 : Env)
    (tr2 : List Event)
    (hinit : pmem_init h g0 env0 = some (err, g1, env1, trI))
    (herr : err ≠ KERN_SUCCESS)
    (hcl : pmem_cleanup g1 env1 err = some (r, env2, tr2)) :
    com_google_MacPmem_start h g0 env0 = some (r, g1, env2, trI ++ tr2) := by
  unfold com_google_MacPmem_start
  rw [hinit]
  dsimp only
  simp [herr, hcl]

lemma start_meta_fail (h : Host) (g0 : Globals) (env0 : Env)
    (g1 : Globals) (env1 : Env) (trI : List Event) (r : Int) (env2 : Env)
    (tr2 : List Event)
    (hinit : pmem_init h g0 env0 = some (KERN_SUCCESS, g1, env1, trI))
    (hmeta : h.meta_init_result ≠ KERN_SUCCESS)
    (hcl : pmem_cleanup g1 env1 h.meta_init_result = some (r, env2, tr2)) :
    com_google_MacPmem_start h g0 env0 =
      some (r, g1, env2,
            trI ++ [Event.metaInit h.meta_init_result] ++ tr2) := by
  unfold com_google_MacPmem_start
  rw [hinit]
  dsimp only
  simp [hmeta, hcl]

lemma start_pte_fail (h : Host) (g0 : Globals) (env0 : Env)
    (g1 : Globals) (env1 : Env) (trI : List Event) (r : Int) (env2 : Env)
    (tr2 : List Event)
    (hinit : pmem_init h g0 env0 = some (KERN_SUCCESS, g1, env1, trI))
    (hmeta : h.meta_init_result = KERN_SUCCESS)
    (hpte : h.pte_init_result ≠ KERN_SUCCESS)
    (hcl : pmem_cleanup g1 env1 h.pte_init_result = some (r, env2, tr2)) :
    com_google_MacPmem_start h g0 env0 =
      some (r, g1, env2,
            trI ++ [Event.metaInit h.meta_init_result,
                    Event.pteInit h.pte_init_result] ++ tr2) := by
  unfold com_google_MacPmem_start
  rw [hinit]
  dsimp only
  simp [hmeta, hpte, hcl]

lemma start_success (h : Host) (g0 : Globals) (env0 : Env)
    (g1 : Globals) (env1 : Env) (trI : List Event)
    (hinit : pmem_init h g0 env0 = some (KERN_SUCCESS, g1, env1, trI))
    (hmeta : h.meta_init_result = KERN_SUCCESS)
    (hpte : h.pte_init_result = KERN_SUCCESS) :
    com_google_MacPmem_start h g0 env0 =
      some (KERN_SUCCESS, { g1 with pmem_sysctl_needs_cleanup := true },
            { env1 with sysctl_registered := true },
            trI ++ [Event.metaInit h.meta_init_result,
                    Event.pteInit h.pte_init_result,
                    Event.sysctlRegister]) := by
  unfold com_google_MacPmem_start
  rw [hinit]
  dsimp only
  simp [hmeta, hpte]

lemma cleanup_none_of_dead_devnode (g : Globals) (env : Env) (e : Int)
    (h1 : g.pmem_devnode = true) (h2 : env.devnode_live = false) :
    pmem_cleanup g env e = none := by
  unfold pmem_cleanup cleanup_nodes
  simp [h1, h2]

lemma cleanup_locks_needs (g : Globals) (env env5 : Env) (tr5 : List Event)
    (h : cleanup_locks g env = some (env5, tr5)) :
    env.mutex_attr_live = true := by
  unfold cleanup_locks lck_free at h
  cases hb : (g.pmem_mutex_grp_attr && env.mutex_attr_live) <;> simp_all

/-- Fully-acquired module globals: both nodes, a positive registered
major number, the tag, the sysctl flag and all four lock handles. -/
def gFull : Globals := ⟨7, true, true, true, true, true, true, true, true⟩

/-- Host view consistent with gFull: everything live, cdevsw registered
at index 7. -/
def envFull : Env := ⟨true, true, some 7, true, true, true, true, true, true⟩

/-- The trace of the first pmem_cleanup run from gFull, envFull. -/
def trC1 : List Event :=
  [Event.devfsRemoveDev, Event.devfsRemoveInfo, Event.cdevswRemove 7 7,
   Event.tagFree, Event.metaCleanup, Event.pteCleanup,
   Event.sysctlUnregister, Event.mutexAttrFree, Event.mutexGrpFree,
   Event.rwlockAttrFree, Event.rwlockGrpFree]

/-- C1: the claim says pmem_cleanup is idempotent - running it twice in
a row from any acquired subset must not fault and the second run must be
a no-op.  Refuted at the fully-acquired consistent state: the first
invocation succeeds, but because pmem_cleanup never resets the handle
globals, the second invocation calls devfs_remove on the already-removed
device node (and would re-free the lock groups), which faults. -/
theorem C1_counterexample :
    (pmem_cleanup gFull envFull KERN_SUCCESS).isSome = true ∧
    ((pmem_cleanup gFull envFull KERN_SUCCESS).bind
        fun x => pmem_cleanup gFull x.2.1 KERN_SUCCESS) = none := by
  decide

/-- C1 amended: pmem_cleanup is never idempotent - it leaves every
handle global set, so whenever one invocation completes without
faulting, a second invocation on the resulting environment always
faults (at the devfs node re-removal, or at latest at the unguarded
lock-group frees, whose referents the first run already freed). -/
theorem C1_amended_thm (g : Globals) (env : Env) (e e2 r : Int)
    (env2 : Env) (tr : List Event)
    (hcl : pmem_cleanup g env e = some (r, env2, tr)) :
    pmem_cleanup g env2 e2 = none := by
  have h1 : env2.mutex_attr_live = false :=
    (cleanup_inv g env e r env2 tr hcl).2.2.2.2.2.2.1
  rcases h2 : pmem_cleanup g env2 e2 with _ | ⟨r3, env3x, tr3x⟩
  · rfl
  exfalso
  obtain ⟨env1b, tr1b, env3b, tr3b, env4b, tr4b, env5b, tr5b,
          hn, ht, hs, hl, -, -, -⟩ :=
    cleanup_shape g env2 e2 r3 env3x tr3x h2
  obtain ⟨hh1, -⟩ := cleanup_nodes_inv _ _ _ _ hn
  obtain ⟨hh3, -⟩ := cleanup_tag_inv _ _ _ _ ht
  obtain ⟨hh4, -⟩ := cleanup_sysctl_inv _ _ _ _ hs
  have hx : env4b.mutex_attr_live = false := by
    rw [hh4]
    dsimp only
    rw [hh3]
    dsimp only
    rw [cleanup_major_eq]
    dsimp only
    rw [hh1]
    dsimp only
    exact h1
  have hy := cleanup_locks_needs g env4b env5b tr5b hl
  rw [hx] at hy
  cases hy

/-- C1 witness: concrete run of the amended theorem - after the first
cleanup from the fully-acquired state (which yields init_env as the
host view), a second cleanup faults. -/
theorem C1_witness : pmem_cleanup gFull init_env 0 = none :=
  C1_amended_thm gFull envFull 0 0 0 init_env trC1 (by decide)

lemma consistent_env_stage (h : Host) (reg : Option Int) (info dev : Bool)
    (hreg : 0 < h.cdevsw_add_result → reg = some h.cdevsw_add_result) :
    Consistent (g_stage h info dev) (env_stage h reg info dev) :=
  ⟨fun hx => hx, fun hx => hx, hreg, fun hx => hx, fun hx => hx,
   fun hx => hx, fun hx => hx, fun hx => hx, fun hx => hx⟩

lemma locks_g_stage (h : Host) (info dev : Bool)
    (h1 : h.mutex_grp_ok = true) (h2 : h.mutex_attr_ok = true)
    (h3 : h.rwlock_grp_ok = true) (h4 : h.rwlock_attr_ok = true) :
    locksAcquired (g_stage h info dev) :=
  ⟨h1, h2, h3, h4⟩

lemma cleanup_stage_released (h : Host) (reg : Option Int) (info dev : Bool)
    (e : Int)
    (hrg : h.rwlock_grp_ok = true) (hra : h.rwlock_attr_ok = true)
    (hmg : h.mutex_grp_ok = true) (hma : h.mutex_attr_ok = true)
    (hreg : 0 < h.cdevsw_add_result → reg = some h.cdevsw_add_result)
    (hreg2 : h.cdevsw_add_result ≤ 0 → reg = none) :
    ∃ env2 tr2,
      pmem_cleanup (g_stage h info dev) (env_stage h reg info dev) e =
        some (e, env2, tr2) ∧ FullyReleased env2 := by
  have hcons := consistent_env_stage h reg info dev hreg
  have hlk := locks_g_stage h info dev hmg hma hrg hra
  have htot := cleanup_total _ _ e hcons hlk
  rw [Option.isSome_iff_exists] at htot
  obtain ⟨⟨r, env2, tr2⟩, hcl⟩ := htot
  obtain ⟨i1, i2, i3, i4, i5, i6, i7, i8, i9, i10, -, -, -⟩ :=
    cleanup_inv _ _ _ _ _ _ hcl
  have hre : r = e := by
    rw [i1]
    by_cases hp : 0 < h.cdevsw_add_result
    · simp [g_stage, env_stage, hreg hp, hp]
    · simp [g_stage, env_stage, hp]
  refine ⟨env2, tr2, by rw [hre] at hcl; exact hcl, ?_, ?_, ?_, ?_, ?_, ?_,
          ?_, ?_, ?_⟩
  · rw [i2]; simp [g_stage, env_stage]
  · rw [i3]; simp [g_stage, env_stage]
  · rw [i4]
    by_cases hp : 0 < h.cdevsw_add_result
    · simp [g_stage, env_stage, hreg hp, hp]
    · simp [g_stage, env_stage, hp, hreg2 (by omega)]
  · rw [i5]; simp [g_stage, env_stage]
  · rw [i6]; simp [g_stage, env_stage]
  · exact i8
  · exact i7
  · exact i10
  · exact i9

/-- Host oracle on which every acquisition step succeeds except
pmem_pte_init, which fails with status 3 (failure at spec step 6). -/
def hPteFail : Host := ⟨true, true, true, true, true, 42, true, true, 0, 3⟩

/-- C2: the claim says that on failure at step k the rollback releases
exactly the resources of steps k-1 down to 1 in strict reverse order of
acquisition.  Formalized with stepOf, which maps each release event to
its spec step number (the four lock-group frees all belong to step 1).
At k = 6 (pmem_pte_init fails) strict reverse order would be the step
sequence [5, 4, 3, 2, 1, 1, 1, 1]; the code instead removes the nodes
and the major number first, then runs both collaborator cleanups -
including step 6, which was never acquired - giving
[4, 3, 2, 5, 6, 1, 1, 1, 1].  The claim is refuted. -/
theorem C2_counterexample :
    (com_google_MacPmem_start hPteFail init_globals init_env).map
        (fun x => x.2.2.2.filterMap stepOf) =
      some [4, 3, 2, 5, 6, 1, 1, 1, 1] ∧
    (com_google_MacPmem_start hPteFail init_globals init_env).map
        (fun x => x.2.2.2.filterMap stepOf) ≠
      some [5, 4, 3, 2, 1, 1, 1, 1] := by
  decide

/-- C2 amended: when any detected step of the acquisition sequence
fails (negative major number, null device node, or failing collaborator
init), start returns a failing status and the rollback has released
everything the host still held: both nodes gone, the cdevsw slot free,
tag, sysctl oid and all four lock-group objects gone.  The release
order is fixed by the code (nodes, major number, tag, collaborator
cleanups, sysctl, lock groups) rather than the strict reverse of
acquisition.  Hypotheses: the four lock-group allocations succeeded
(otherwise the unguarded frees fault, claim C4), and the host does not
assign major number 0 (an assigned 0 is never deregistered, claim C5). -/
theorem C2_amended_thm (h : Host)
    (hra : h.rwlock_attr_ok = true) (hrg : h.rwlock_grp_ok = true)
    (hma : h.mutex_attr_ok = true) (hmg : h.mutex_grp_ok = true)
    (hnz : h.cdevsw_add_result ≠ 0)
    (hfail : ¬ (0 ≤ h.cdevsw_add_result ∧ h.infonode_ok = true ∧
                h.devnode_ok = true ∧ h.meta_init_result = KERN_SUCCESS ∧
                h.pte_init_result = KERN_SUCCESS)) :
    ∃ r g2 env2 tr,
      com_google_MacPmem_start h init_globals init_env =
        some (r, g2, env2, tr) ∧ r ≠ KERN_SUCCESS ∧ FullyReleased env2 := by
  by_cases hc0 : 0 ≤ h.cdevsw_add_result
  · have hpos : 0 < h.cdevsw_add_result := by omega
    by_cases hi : h.infonode_ok = true
    · by_cases hd : h.devnode_ok = true
      · by_cases hm : h.meta_init_result = KERN_SUCCESS
        · have hp : h.pte_init_result ≠ KERN_SUCCESS := by
            intro hx; exact hfail ⟨hc0, hi, hd, hm, hx⟩
          obtain ⟨env2, tr2, hcl, hrel⟩ :=
            cleanup_stage_released h (some h.cdevsw_add_result) true true
              h.pte_init_result hrg hra hmg hma (fun _ => rfl)
              (fun hx => absurd hx (by omega))
          exact ⟨h.pte_init_result, _, env2, _,
                 start_pte_fail h init_globals init_env _ _ _ _ env2 tr2
                   (pmem_init_ok h hra hma hc0 hi hd) hm hp hcl, hp, hrel⟩
        · obtain ⟨env2, tr2, hcl, hrel⟩ :=
            cleanup_stage_released h (some h.cdevsw_add_result) true true
              h.meta_init_result hrg hra hmg hma (fun _ => rfl)
              (fun hx => absurd hx (by omega))
          exact ⟨h.meta_init_result, _, env2, _,
                 start_meta_fail h init_globals init_env _ _ _ _ env2 tr2
                   (pmem_init_ok h hra hma hc0 hi hd) hm hcl, hm, hrel⟩
      · have hd2 : h.devnode_ok = false := by simpa using hd
        obtain ⟨env2, tr2, hcl, hrel⟩ :=
          cleanup_stage_released h (some h.cdevsw_add_result) true false
            KERN_FAILURE hrg hra hmg hma (fun _ => rfl)
            (fun hx => absurd hx (by omega))
        exact ⟨KERN_FAILURE, _, env2, _,
               start_init_fail h init_globals init_env KERN_FAILURE _ _ _
                 KERN_FAILURE env2 tr2
                 (pmem_init_nodev h hra hma hc0 hi hd2) (by decide) hcl,
               by decide, hrel⟩
    · have hi2 : h.infonode_ok = false := by simpa using hi
      obtain ⟨env2, tr2, hcl, hrel⟩ :=
        cleanup_stage_released h (some h.cdevsw_add_result) false false
          KERN_FAILURE hrg hra hmg hma (fun _ => rfl)
          (fun hx => absurd hx (by omega))
      exact ⟨KERN_FAILURE, _, env2, _,
             start_init_fail h init_globals init_env KERN_FAILURE _ _ _
               KERN_FAILURE env2 tr2
               (pmem_init_noinfo h hra hma hc0 hi2) (by decide) hcl,
             by decide, hrel⟩
  · have hneg : h.cdevsw_add_result < 0 := by omega
    obtain ⟨env2, tr2, hcl, hrel⟩ :=
      cleanup_stage_released h none false false KERN_FAILURE hrg hra hmg hma
        (fun hx => absurd hx (by omega)) (fun _ => rfl)
    exact ⟨KERN_FAILURE, _, env2, _,
           start_init_fail h init_globals init_env KERN_FAILURE _ _ _
             KERN_FAILURE env2 tr2
             (pmem_init_neg h hra hma hneg) (by decide) hcl,
           by decide, hrel⟩

/-- C2 witness: the amended theorem applied at the concrete host on
which pmem_pte_init fails. -/
theorem C2_witness :
    ∃ r g2 env2 tr,
      com_google_MacPmem_start hPteFail init_globals init_env =
        some (r, g2, env2, tr) ∧ r ≠ KERN_SUCCESS ∧ FullyReleased env2 :=
  C2_amended_thm hPteFail rfl rfl rfl rfl (by decide) (by decide)

/-- Globals with a positive registered major number and the four lock
handles set, but no nodes, tag or sysctl flag. -/
def gEcho : Globals := ⟨7, false, true, true, true, true, false, false, false⟩

/-- Host view on which the cdevsw slot for major 7 is empty (echo check
will fail) but the lock-group objects are live. -/
def envEchoBad : Env := ⟨false, false, none, false, false, true, true, true, true⟩

/-- C3: the claim says the rollback returns prior_error unchanged for
every non-success prior_error.  Refuted: with prior_error 3 and a state
in which cdevsw_remove does not echo pmem_majorno, pmem_cleanup
overwrites the prior error and returns KERN_FAILURE (5), not 3. -/
theorem C3_counterexample :
    (pmem_cleanup gEcho envEchoBad 3).map (fun x => x.1) =
      some KERN_FAILURE ∧ KERN_FAILURE ≠ (3 : Int) := by
  decide

/-- C3 amended: pmem_cleanup returns prior_error unchanged whenever
pmem_majorno is not positive or the deregistration echoes the
registered number (when the echo check fails its KERN_FAILURE replaces
even a distinct non-success prior_error); and start on a failing
collaborator step returns exactly that step's error - the second part
covers a failing pmem_meta_init, the third a failing pmem_pte_init -
since echo consistency holds on start's own failure paths. -/
theorem C3_amended_thm :
    (∀ (g : Globals) (env : Env) (e r : Int) (env2 : Env) (tr : List Event),
        pmem_cleanup g env e = some (r, env2, tr) →
        (0 < g.pmem_majorno → env.cdevsw_major = some g.pmem_majorno) →
        r = e) ∧
    (∀ h : Host, h.rwlock_attr_ok = true → h.rwlock_grp_ok = true →
        h.mutex_attr_ok = true → h.mutex_grp_ok = true →
        0 < h.cdevsw_add_result → h.infonode_ok = true →
        h.devnode_ok = true → h.meta_init_result ≠ KERN_SUCCESS →
        ∃ g2 env2 tr,
          com_google_MacPmem_start h init_globals init_env =
            some (h.meta_init_result, g2, env2, tr)) ∧
    (∀ h : Host, h.rwlock_attr_ok = true → h.rwlock_grp_ok = true →
        h.mutex_attr_ok = true → h.mutex_grp_ok = true →
        0 < h.cdevsw_add_result → h.infonode_ok = true →
        h.devnode_ok = true → h.meta_init_result = KERN_SUCCESS →
        h.pte_init_result ≠ KERN_SUCCESS →
        ∃ g2 env2 tr,
          com_google_MacPmem_start h init_globals init_env =
            some (h.pte_init_result, g2, env2, tr)) := by
  refine ⟨?_, ?_, ?_⟩
  · intro g env e r env2 tr hcl hecho
    rw [(cleanup_inv g env e r env2 tr hcl).1]
    by_cases hp : 0 < g.pmem_majorno
    · simp [hp, hecho hp]
    · simp [hp]
  · intro h hra hrg hma hmg hpos hi hd hm
    obtain ⟨env2, tr2, hcl, -⟩ :=
      cleanup_stage_released h (some h.cdevsw_add_result) true true
        h.meta_init_result hrg hra hmg hma (fun _ => rfl)
        (fun hx => absurd hx (by omega))
    exact ⟨_, env2, _,
           start_meta_fail h init_globals init_env _ _ _ _ env2 tr2
             (pmem_init_ok h hra hma (by omega) hi hd) hm hcl⟩
  · intro h hra hrg hma hmg hpos hi hd hm hp
    obtain ⟨env2, tr2, hcl, -⟩ :=
      cleanup_stage_released h (some h.cdevsw_add_result) true true
        h.pte_init_result hrg hra hmg hma (fun _ => rfl)
        (fun hx => absurd hx (by omega))
    exact ⟨_, env2, _,
           start_pte_fail h init_globals init_env _ _ _ _ env2 tr2
             (pmem_init_ok h hra hma (by omega) hi hd) hm hp hcl⟩

/-- Host oracle on which everything succeeds except pmem_meta_init,
which fails with status 3. -/
def hMetaFail : Host := ⟨true, true, true, true, true, 42, true, true, 3, 0⟩

/-- C3 witness: all three parts of the amended theorem at concrete
inputs - the pass-through of the status from the fully-acquired
echo-consistent state, start returning pmem_meta_init's own status 3,
and start returning pmem_pte_init's own status 3. -/
theorem C3_witness :
    (0 : Int) = 0 ∧
    (∃ g2 env2 tr,
      com_google_MacPmem_start hMetaFail init_globals init_env =
        some (hMetaFail.meta_init_result, g2, env2, tr)) ∧
    (∃ g2 env2 tr,
      com_google_MacPmem_start hPteFail init_globals init_env =
        some (hPteFail.pte_init_result, g2, env2, tr)) :=
  ⟨C3_amended_thm.1 gFull envFull 0 0 init_env trC1 (by decide) (by decide),
   C3_amended_thm.2.1 hMetaFail rfl rfl rfl rfl (by decide) rfl rfl
     (by decide),
   C3_amended_thm.2.2 hPteFail rfl rfl rfl rfl (by decide) rfl rfl rfl
     (by decide)⟩

/-- Host oracle on which the mutex lock-group allocation fails and
pmem_meta_init later fails, forcing a rollback. -/
def hGrpNull : Host := ⟨true, true, true, true, false, 42, true, true, 3, 0⟩

/-- C4: the claim says releasing the lock groups tolerates null handles
and never faults in any state the rollback can run in.  Refuted: the
frees at MacPmem.c:184-189 are unguarded, so when the mutex group
allocation failed (null handle) and pmem_meta_init then fails, the
rollback inside start reaches lck_grp_free(NULL) and faults - the
whole run is a fault (none). -/
theorem C4_counterexample :
    com_google_MacPmem_start hGrpNull init_globals init_env = none := by
  decide

/-- C4 amended: the rollback tolerates absent device nodes, tag and
sysctl registration, but not absent lock groups: it completes without
faulting in every consistent state in which all four lock-group
handles are non-null (which start guarantees only when the lock-group
allocations succeeded). -/
theorem C4_amended_thm (g : Globals) (env : Env) (e : Int)
    (hcons : Consistent g env) (hlocks : locksAcquired g) :
    (pmem_cleanup g env e).isSome = true :=
  cleanup_total g env e hcons hlocks

/-- C4 witness: the amended theorem at the fully-acquired state. -/
theorem C4_witness : (pmem_cleanup gFull envFull 0).isSome = true :=
  C4_amended_thm gFull envFull 0 (by unfold Consistent; decide)
    (by unfold locksAcquired; decide)

/-- Host oracle on which cdevsw_add assigns major number 0 and
pmem_meta_init later fails with status 3, forcing a rollback. -/
def hMajorZero : Host := ⟨true, true, true, true, true, 0, true, true, 3, 0⟩

/-- C5: the claim says the rollback deregisters the major number
whenever it was non-negative.  Refuted: the guard at MacPmem.c:162 is
pmem_majorno > 0, so an assigned major number 0 - which pmem_init
accepts, since it only rejects negative results - is never
deregistered: after the failed start the cdevsw slot 0 is still
registered. -/
theorem C5_counterexample :
    (com_google_MacPmem_start hMajorZero init_globals init_env).map
        (fun x => (x.2.1.pmem_majorno, x.2.2.1.cdevsw_major)) =
      some (0, some 0) := by
  decide

/-- C5 amended: major-number registration accepts any non-negative
assignment (pmem_init fails with KERN_FAILURE exactly on a negative
cdevsw_add result), and during rollback the major number is
deregistered whenever it was strictly positive; when pmem_majorno is
not positive the registration state is left untouched. -/
theorem C5_amended_thm :
    (∀ (h : Host) (g : Globals) (env : Env),
        h.rwlock_attr_ok = true → h.mutex_attr_ok = true →
        h.cdevsw_add_result < 0 →
        (pmem_init h g env).map (fun x => x.1) = some KERN_FAILURE) ∧
    (∀ (h : Host) (g : Globals) (env : Env),
        h.rwlock_attr_ok = true → h.mutex_attr_ok = true →
        0 ≤ h.cdevsw_add_result → h.infonode_ok = true →
        h.devnode_ok = true →
        (pmem_init h g env).map (fun x => x.1) = some KERN_SUCCESS) ∧
    (∀ (g : Globals) (env : Env) (e r : Int) (env2 : Env) (tr : List Event),
        pmem_cleanup g env e = some (r, env2, tr) →
        0 < g.pmem_majorno → env.cdevsw_major = some g.pmem_majorno →
        env2.cdevsw_major = none) ∧
    (∀ (g : Globals) (env : Env) (e r : Int) (env2 : Env) (tr : List Event),
        pmem_cleanup g env e = some (r, env2, tr) →
        g.pmem_majorno ≤ 0 → env2.cdevsw_major = env.cdevsw_major) := by
  refine ⟨?_, ?_, ?_, ?_⟩
  · intro h g env hra hma hneg
    have h0 : ¬ 0 ≤ h.cdevsw_add_result := by omega
    unfold pmem_init lck_grp_attr_setstat
    simp [hra, hma, hneg, h0]
  · intro h g env hra hma hc hi hd
    have h0 : ¬ h.cdevsw_add_result < 0 := by omega
    unfold pmem_init lck_grp_attr_setstat
    simp [hra, hma, hc, h0, hi, hd]
  · intro g env e r env2 tr hcl hp hecho
    rw [(cleanup_inv g env e r env2 tr hcl).2.2.2.1]
    simp [hp, hecho]
  · intro g env e r env2 tr hcl hp
    rw [(cleanup_inv g env e r env2 tr hcl).2.2.2.1]
    simp [show ¬ 0 < g.pmem_majorno by omega]

/-- Host oracle on which cdevsw_add refuses the registration. -/
def hNegMajor : Host := ⟨true, true, true, true, true, -5, true, true, 0, 0⟩

/-- Globals with major number 0 and only the lock handles set. -/
def gLocksOnly : Globals := ⟨0, false, true, true, true, true, false, false, false⟩

/-- Host view with a stray registration at slot 9 and live lock
groups. -/
def envLocksReg9 : Env := ⟨false, false, some 9, false, false, true, true, true, true⟩

/-- C5 witness: all four parts of the amended theorem at concrete
inputs - a refused registration fails pmem_init, an accepted one
succeeds, a positive major number is deregistered during cleanup, and a
non-positive one leaves the registration state untouched. -/
theorem C5_witness :
    (pmem_init hNegMajor init_globals init_env).map (fun x => x.1) =
      some KERN_FAILURE ∧
    (pmem_init hMetaFail init_globals init_env).map (fun x => x.1) =
      some KERN_SUCCESS ∧
    init_env.cdevsw_major = none ∧
    (⟨false, false, some 9, false, false, false, false, false, false⟩ :
        Env).cdevsw_major = envLocksReg9.cdevsw_major :=
  ⟨C5_amended_thm.1 hNegMajor init_globals init_env rfl rfl (by decide),
   C5_amended_thm.2.1 hMetaFail init_globals init_env rfl rfl (by decide)
     rfl rfl,
   C5_amended_thm.2.2.1 gFull envFull 0 0 init_env trC1 (by decide)
     (by decide) (by decide),
   C5_amended_thm.2.2.2 gLocksOnly envLocksReg9 0 0
     ⟨false, false, some 9, false, false, false, false, false, false⟩
     [Event.metaCleanup, Event.pteCleanup, Event.mutexAttrFree,
      Event.mutexGrpFree, Event.rwlockAttrFree, Event.rwlockGrpFree]
     (by decide) (by decide)⟩

/-- C6: confirmed - if cdevsw_remove does not echo the registered major
number, stop reports KERN_FAILURE even though prior_error was success,
and the remaining cleanup steps still run to completion: the tag is
freed, both collaborator cleanups are called, the sysctl oid is
unregistered and all four lock-group objects are freed. -/
theorem C6_thm (g : Globals) (env : Env) (r : Int) (env2 : Env)
    (tr : List Event) (hmaj : 0 < g.pmem_majorno)
    (hecho : env.cdevsw_major ≠ some g.pmem_majorno)
    (hrun : com_google_MacPmem_stop g env = some (r, env2, tr)) :
    r = KERN_FAILURE ∧
    (g.pmem_tag = true → env2.tag_live = false) ∧
    (g.pmem_sysctl_needs_cleanup = true → env2.sysctl_registered = false) ∧
    env2.mutex_attr_live = false ∧ env2.mutex_grp_live = false ∧
    env2.rwlock_attr_live = false ∧ env2.rwlock_grp_live = false ∧
    Event.metaCleanup ∈ tr ∧ Event.pteCleanup ∈ tr := by
  have hrun2 : pmem_cleanup g env KERN_SUCCESS = some (r, env2, tr) := hrun
  obtain ⟨i1, -, -, -, i5, i6, i7, i8, i9, i10, i11, i12, -⟩ :=
    cleanup_inv g env KERN_SUCCESS r env2 tr hrun2
  refine ⟨by rw [i1]; simp [hmaj, hecho], ?_, ?_, i7, i8, i9, i10, i11, i12⟩
  · intro hx; rw [i5, hx]; simp
  · intro hx; rw [i6, hx]; simp

/-- Globals for the C6 witness: positive major number 7, tag, sysctl
flag and lock handles set, no nodes. -/
def gStopW : Globals := ⟨7, true, true, true, true, true, true, false, false⟩

/-- Host view for the C6 witness: the cdevsw slot for 7 is empty (a
stray registration sits at 9), everything else live. -/
def envStopW : Env := ⟨false, false, some 9, true, true, true, true, true, true⟩

/-- C6 witness: the theorem at a concrete state whose cdevsw_remove
echo fails. -/
theorem C6_witness : (5 : Int) = KERN_FAILURE :=
  (C6_thm gStopW envStopW 5
      ⟨false, false, some 9, false, false, false, false, false, false⟩
      [Event.cdevswRemove 7 (-1), Event.tagFree, Event.metaCleanup,
       Event.pteCleanup, Event.sysctlUnregister, Event.mutexAttrFree,
       Event.mutexGrpFree, Event.rwlockAttrFree, Event.rwlockGrpFree]
      (by decide) (by decide) (by decide)).1

/-- C7: confirmed - in every completed run of the rollback routine
(stop runs it with KERN_SUCCESS, every failure path of start runs it
with the failing step's error), no device-node removal event occurs
after a cdevsw deregistration event in the trace: both devfs_remove
calls precede cdevsw_remove. -/
theorem C7_thm (g : Globals) (env : Env) (e r : Int) (env2 : Env)
    (tr : List Event) (h : pmem_cleanup g env e = some (r, env2, tr)) :
    nodesBeforeMajor tr = true :=
  (cleanup_inv g env e r env2 tr h).2.2.2.2.2.2.2.2.2.2.2.2

/-- C7 witness: the theorem at the fully-acquired state, whose trace
removes both nodes, then the major number, then everything else. -/
theorem C7_witness : nodesBeforeMajor trC1 = true :=
  C7_thm gFull envFull 0 0 init_env trC1 (by decide)

/-- C8: confirmed - pmem_open, pmem_close and pmem_read with the
raw-memory minor (1) route only to the no-op/raw-memory handlers, with
the metadata minor (2) only to the metadata handlers, and with any
other minor return KERN_FAILURE (the UnknownDevice outcome), emit a
warning log, and invoke neither collaborator.  The C bodies of all
three functions read and write no module global, so module state is
untouched by construction (they are embedded as pure functions). -/
theorem C8_thm (c : Collab) (m : Int) (h1 : m ≠ PMEM_DEV_MINOR)
    (h2 : m ≠ PMEM_INFO_MINOR) :
    (pmem_open c PMEM_DEV_MINOR = (KERN_SUCCESS, []) ∧
     pmem_close c PMEM_DEV_MINOR = (KERN_SUCCESS, []) ∧
     pmem_read c PMEM_DEV_MINOR =
       (c.read_rogue_result, [DispatchCall.read_rogue])) ∧
    (pmem_open c PMEM_INFO_MINOR =
       (c.openmeta_result, [DispatchCall.openmeta]) ∧
     pmem_close c PMEM_INFO_MINOR =
       (c.closemeta_result, [DispatchCall.closemeta]) ∧
     pmem_read c PMEM_INFO_MINOR =
       (c.readmeta_result, [DispatchCall.readmeta])) ∧
    (pmem_open c m = (KERN_FAILURE, [DispatchCall.warnLog]) ∧
     pmem_close c m = (KERN_FAILURE, [DispatchCall.warnLog]) ∧
     pmem_read c m = (KERN_FAILURE, [DispatchCall.warnLog])) := by
  unfold pmem_open pmem_close pmem_read
  refine ⟨⟨by simp, by simp, by simp⟩,
          ⟨?_, ?_, ?_⟩, ⟨?_, ?_, ?_⟩⟩ <;>
    simp [PMEM_DEV_MINOR, PMEM_INFO_MINOR] at h1 h2 ⊢ <;>
    simp [h1, h2]

/-- C8 witness: the theorem at a concrete collaborator oracle and the
unknown minor 7. -/
theorem C8_witness :
    pmem_open ⟨1, 2, 3, 4⟩ 7 = (KERN_FAILURE, [DispatchCall.warnLog]) :=
  (C8_thm ⟨1, 2, 3, 4⟩ 7 (by decide) (by decide)).2.2.1

/-- Host oracle on which the mutex lock-group allocation fails but all
checked steps succeed. -/
def hGrpNullOk : Host := ⟨true, true, true, true, false, 42, true, true, 0, 0⟩

/-- C9: the claim says a failed lock-group allocation aborts startup
with a ResourceExhausted error.  Refuted: pmem_init performs no check
at all on the lck_grp_alloc_init results (MacPmem.c:198-207), so with
the mutex group allocation failing and every checked step succeeding,
start returns KERN_SUCCESS and leaves the module running with a null
mutex lock-group handle. -/
theorem C9_counterexample :
    (com_google_MacPmem_start hGrpNullOk init_globals init_env).map
        (fun x => (x.1, x.2.1.pmem_mutex_grp)) =
      some (KERN_SUCCESS, false) := by
  decide

/-- C9 amended: pmem_init checks only the major-number registration,
the two node creations and the collaborator inits; the allocation
results for the tag and the lock groups are ignored, so start returns
KERN_SUCCESS regardless of the tag_alloc_ok, rwlock_grp_ok and
mutex_grp_ok outcomes whenever those checked steps succeed (only a
null attribute would fault inside lck_grp_attr_setstat). -/
theorem C9_amended_thm (h : Host) (hra : h.rwlock_attr_ok = true)
    (hma : h.mutex_attr_ok = true) (hc : 0 ≤ h.cdevsw_add_result)
    (hi : h.infonode_ok = true) (hd : h.devnode_ok = true)
    (hm : h.meta_init_result = KERN_SUCCESS)
    (hp : h.pte_init_result = KERN_SUCCESS) :
    (com_google_MacPmem_start h init_globals init_env).map (fun x => x.1) =
      some KERN_SUCCESS := by
  rw [start_success h init_globals init_env _ _ _
        (pmem_init_ok h hra hma hc hi hd) hm hp]
  simp

/-- C9 witness: the amended theorem at the oracle with the failed
mutex-group allocation. -/
theorem C9_witness :
    (com_google_MacPmem_start hGrpNullOk init_globals init_env).map
        (fun x => x.1) = some KERN_SUCCESS :=
  C9_amended_thm hGrpNullOk rfl rfl (by decide) rfl rfl rfl rfl

/-- C10: confirmed - the only cleanup step that can change the status
pmem_cleanup returns relative to its argument is the major-number echo
check: whenever pmem_majorno is not positive or cdevsw_remove echoes it
exactly, the argument is returned unchanged; when pmem_majorno is
positive and the echo fails, KERN_FAILURE is returned whatever the
argument was.  Node removal, tag freeing, the collaborator cleanups,
sysctl unregistration and the lock-group frees never touch the
returned status. -/
theorem C10_thm (g : Globals) (env : Env) (e r : Int) (env2 : Env)
    (tr : List Event) (h : pmem_cleanup g env e = some (r, env2, tr)) :
    ((g.pmem_majorno ≤ 0 ∨ env.cdevsw_major = some g.pmem_majorno) →
      r = e) ∧
    (0 < g.pmem_majorno → env.cdevsw_major ≠ some g.pmem_majorno →
      r = KERN_FAILURE) := by
  have i1 := (cleanup_inv g env e r env2 tr h).1
  constructor
  · intro hx
    rw [i1]
    rcases hx with hx | hx
    · simp [show ¬ 0 < g.pmem_majorno by omega]
    · simp [hx]
  · intro hp hecho
    rw [i1]
    simp [hp, hecho]

/-- C10 witness: pass-through of the status at the fully-acquired
echo-consistent state. -/
theorem C10_witness : (0 : Int) = 0 :=
  (C10_thm gFull envFull 0 0 init_env trC1 (by decide)).1 (Or.inr (by decide))
